import Mathlib

/-
Verification of the quickjs remote debugger (quickjs-debugger.c).

The development is a shallow embedding of the debugger translation unit.
Pure protocol logic is translated function by function; the host runtime
(quickjs.c) is reached only through small, clearly marked models or
oracle parameters.  Machine integers are modelled as Nat or Int with an
explicit mod 2 ^ 32 wherever the C code truncates.
-/

namespace QuickJSDebugger

/-- Model of a quickjs JSValue as seen by the debugger: only the tag and, for
objects, the heap pointer matter to the code under study.  Numeric and string
payloads that the debugger never branches on are kept only where the code
reads them (int payload for JS_ToUint32, string payload for property names).
Constructors mirror the tags tested by the JS_Is* predicates used in
js_debugger_get_variable (lines 128-140). -/
inductive JSVal where
  | undefined : JSVal
  | nullV : JSVal
  | boolV (b : Bool) : JSVal
  | intV (n : Int) : JSVal
  | floatV : JSVal
  | bigfloatV : JSVal
  | strV (s : String) : JSVal
  | symbolV (id : Nat) : JSVal
  | objV (ptr : Nat) : JSVal
deriving DecidableEq, Repr

/-- Model of JS_IsString: true exactly on the string tag. -/
def JS_IsString : JSVal → Bool
  | .strV _ => true
  | _ => false

/-- Model of JS_IsInteger: true exactly on the int tag. -/
def JS_IsInteger : JSVal → Bool
  | .intV _ => true
  | _ => false

/-- Model of JS_IsNumber: true on the int and float tags. -/
def JS_IsNumber : JSVal → Bool
  | .intV _ => true
  | .floatV => true
  | _ => false

/-- Model of JS_IsBigFloat: true exactly on the bigfloat tag. -/
def JS_IsBigFloat : JSVal → Bool
  | .bigfloatV => true
  | _ => false

/-- Model of JS_IsBool. -/
def JS_IsBool : JSVal → Bool
  | .boolV _ => true
  | _ => false

/-- Model of JS_IsNull. -/
def JS_IsNull : JSVal → Bool
  | .nullV => true
  | _ => false

/-- Model of JS_IsUndefined. -/
def JS_IsUndefined : JSVal → Bool
  | .undefined => true
  | _ => false

/-- Model of JS_IsObject: true exactly on the object tag (functions are
objects in quickjs and would also carry this tag). -/
def JS_IsObject : JSVal → Bool
  | .objV _ => true
  | _ => false

/-- Model of JS_VALUE_GET_OBJ: the heap pointer of an object value
(meaningless on other tags, as in the C). -/
def js_value_get_obj : JSVal → Nat
  | .objV p => p
  | _ => 0

/-- Association-list lookup used to model property access on the plain
objects the debugger uses as integer- or string-keyed dictionaries. -/
def alistGet? [DecidableEq α] : List (α × β) → α → Option β
  | [], _ => none
  | (k', v') :: rest, k => if k' = k then some v' else alistGet? rest k

/-- Association-list update modelling JS_SetProperty* semantics on such a
dictionary: replace the binding if the key is present, append otherwise. -/
def alistSet [DecidableEq α] : List (α × β) → α → β → List (α × β)
  | [], k, v => [(k, v)]
  | (k', v') :: rest, k, v =>
      if k' = k then (k, v) :: rest else (k', v') :: alistSet rest k v

/-- Model of JS_GetPropertyUint32 on a dictionary object: absent keys read
as undefined, exactly as in quickjs. -/
def objGetU (m : List (Nat × JSVal)) (k : Nat) : JSVal :=
  (alistGet? m k).getD JSVal.undefined

/-- Low 32 bits of an Int reinterpreted as an unsigned value; models the C
conversion of int expressions to uint32_t. -/
def toUint32 (n : Int) : Nat :=
  (n % 2 ^ 32).toNat

/-- Low 32 bits of a Nat reinterpreted as a signed int32; models the C
conversion of uint32_t values to int32_t (as done by JS_NewInt32 applied to
the uint32_t reference at line 156). -/
def toInt32 (n : Nat) : Int :=
  ((n : Int) + 2 ^ 31) % 2 ^ 32 - 2 ^ 31

/-- Model of JS_ToUint32 (host runtime, quickjs.c, outside src): ECMA
ToUint32.  The only tags this development ever feeds to it are int values
and object values; the conversion of an object goes through ToPrimitive and
is delegated to the coerceObj parameter, since it may run script.  The
remaining branches are never reached here. -/
def js_ToUint32 (coerceObj : Nat → Nat) : JSVal → Nat
  | .intV n => toUint32 n
  | .boolV b => cond b 1 0
  | .objV p => coerceObj p % 2 ^ 32
  | _ => 0

/-- ECMA ToUint32 of a plain object with the default valueOf and toString:
ToPrimitive yields the string with the bracketed words object and Object,
ToNumber on it yields NaN, and ToUint32 of NaN is 0.  quickjs implements
exactly this chain in JS_ToUint32. -/
def plainObjectToUint32 : Nat → Nat := fun _ => 0

/-- struct DebuggerSuspendedState (lines 10-14): the per-pause reference
counter (uint32_t) and the two dictionary objects. -/
structure DebuggerSuspendedState where
  variable_reference_count : Nat
  variable_references : List (Nat × JSVal)
  variable_pointers : List (Nat × JSVal)
deriving DecidableEq, Repr

/-- Initialisation of the suspended state at drain-loop entry
(js_process_debugger_messages, lines 281-283): counter seeded at
stack depth times 4, both maps fresh empty objects. -/
def initSuspendedState (stackDepth : Nat) : DebuggerSuspendedState :=
  ⟨(4 * stackDepth) % 2 ^ 32, [], []⟩

/-- The record js_debugger_get_variable builds: name, optional type tag and
the variablesReference field.  The display string for the value delegates
to JS_ToString on the host and carries no information the claims mention,
so it is not modelled. -/
structure VarRecord where
  name : JSVal
  typeTag : Option String
  variablesReference : Int
deriving DecidableEq, Repr

/-- js_debugger_get_variable (lines 120-159), translated branch by branch.
Note the object branch: on a miss the code allocates the next reference and
stores the VALUE var_val itself under both maps (lines 149-150); on a hit
it feeds the stored value to JS_ToUint32 (line 153).  The uint32_t
reference is placed in the record through JS_NewInt32 (line 156), an
int32_t reinterpretation. -/
def js_debugger_get_variable (coerceObj : Nat → Nat)
    (state : DebuggerSuspendedState) (var_name var_val : JSVal) :
    DebuggerSuspendedState × VarRecord :=
  if JS_IsString var_val then (state, ⟨var_name, some "string", 0⟩)
  else if JS_IsInteger var_val then (state, ⟨var_name, some "integer", 0⟩)
  else if JS_IsNumber var_val || JS_IsBigFloat var_val then
    (state, ⟨var_name, some "float", 0⟩)
  else if JS_IsBool var_val then (state, ⟨var_name, some "boolean", 0⟩)
  else if JS_IsNull var_val then (state, ⟨var_name, some "null", 0⟩)
  else if JS_IsUndefined var_val then (state, ⟨var_name, some "undefined", 0⟩)
  else if JS_IsObject var_val then
    let pl := js_value_get_obj var_val % 2 ^ 32
    let found := objGetU state.variable_pointers pl
    if JS_IsUndefined found then
      let reference := state.variable_reference_count
      ({ variable_reference_count := (reference + 1) % 2 ^ 32,
         variable_references := alistSet state.variable_references reference var_val,
         variable_pointers := alistSet state.variable_pointers pl var_val },
       ⟨var_name, some "object", toInt32 reference⟩)
    else (state, ⟨var_name, some "object", toInt32 (js_ToUint32 coerceObj found)⟩)
  else (state, ⟨var_name, none, 0⟩)

/-- js_transport_read_fully (lines 28-38).  The underlying transport_read
call is modelled as an oracle tr taking the index of the call and the
requested length and returning the C int result; the loop asks for
length - offset bytes each iteration, fails the moment a call returns a
nonpositive count, and otherwise advances offset by the returned count.
Returns the final offset on success so that exactness is observable. -/
def readFullyAux (tr : Nat → Nat → Int) (k offset length : Nat) : Option Nat :=
  if h : offset < length then
    if hr : tr k (length - offset) ≤ 0 then none
    else readFullyAux tr (k + 1) (offset + (tr k (length - offset)).toNat) length
  else some offset
termination_by length - offset
decreasing_by
  simp only [not_le] at hr
  omega

/-- Return value of js_transport_read_fully: 1 (true) on completion, 0
(false) on transport failure. -/
def js_transport_read_fully (tr : Nat → Nat → Int) (length : Nat) : Bool :=
  (readFullyAux tr 0 0 length).isSome

/-- js_transport_write_fully (lines 40-50): textually the same loop as the
read side, over the transport_write oracle. -/
def writeFullyAux (tw : Nat → Nat → Int) (k offset length : Nat) : Option Nat :=
  if h : offset < length then
    if hw : tw k (length - offset) ≤ 0 then none
    else writeFullyAux tw (k + 1) (offset + (tw k (length - offset)).toNat) length
  else some offset
termination_by length - offset
decreasing_by
  simp only [not_le] at hw
  omega

/-- Return value of js_transport_write_fully. -/
def js_transport_write_fully (tw : Nat → Nat → Int) (length : Nat) : Bool :=
  (writeFullyAux tw 0 0 length).isSome

/-- One entry of the scopes response built by js_get_scopes: the name,
reference and expensive properties set at lines 98-115. -/
structure ScopeEntry where
  name : String
  reference : Nat
  expensive : Bool
deriving DecidableEq, Repr

/-- The synthetic reference computed by js_get_scopes: frame shifted left
by two plus the scope code, truncated to 32 bits.  The C computes this on
int and wraps it in JS_NewInt32; the claims that use it carry a no-overflow
side condition under which the truncation is the identity. -/
def encodeScopeRef (frame scope : Nat) : Nat :=
  (4 * frame + scope) % 2 ^ 32

/-- The decoding applied by the variables handler (lines 203-204): frame is
the reference shifted right by two, scope the reference mod 4. -/
def decodeReference (reference : Nat) : Nat × Nat :=
  (reference / 4, reference % 4)

/-- js_get_scopes (lines 90-118): the three scope records pushed onto the
array in source order, Local first, then Closure, then Global. -/
def js_get_scopes (frame : Nat) : List ScopeEntry :=
  [⟨"Local", encodeScopeRef frame 1, false⟩,
   ⟨"Closure", encodeScopeRef frame 2, false⟩,
   ⟨"Global", encodeScopeRef frame 0, true⟩]

/-- struct JSDebuggerLocation.  Modelled from the spec: the struct is
declared in quickjs-debugger.h, which is not part of src; the spec gives
Location as the triple (filename, line, column) compared by value, and the
comparison at lines 366-368 compares the three fields with the C equality
operator (filename is an interned atom, so field equality is by-value
filename equality). -/
structure JSDebuggerLocation where
  filename : Nat
  line : Int
  column : Int
deriving DecidableEq, Repr

/-- One entry of the breakpoint store: the object js_process_breakpoints
builds at lines 259-266, holding the raw breakpoints list from the message
and the dirty stamp. -/
structure BreakpointEntry where
  breakpoints : JSVal
  dirty : Nat
deriving DecidableEq, Repr

/-- The fields of JSDebuggerInfo that the translation unit reads or
writes (the struct itself is declared in the missing header; the field set
below is exactly the one used by quickjs-debugger.c).  The transport
function pointers are modelled by has_transport, true when transport_close
is non-null; message_buffer management is memory plumbing with no
observable protocol effect and is not modelled. -/
structure DebuggerInfo where
  is_debugging : Bool
  attempted_connect : Bool
  has_transport : Bool
  stepping : Bool
  step_over : JSDebuggerLocation
  peek_ticks : Nat
  breakpoints : List (String × BreakpointEntry)
  breakpoints_dirty_counter : Nat
deriving DecidableEq, Repr

/-- Oracle bundle for the host-runtime collaborators the dispatcher calls
(all declared in the missing header and implemented in quickjs.c):
current location, stack depth, backtrace, the three scope snapshots, the
own-enumerable-property enumeration of a value, and the ToPrimitive-based
object-to-uint32 coercion. -/
structure DebuggerHost where
  currentLocation : JSDebuggerLocation
  stackDepth : Nat
  backtrace : JSVal
  globalVariables : JSVal
  localVariables : Nat → JSVal
  closureVariables : Nat → JSVal
  ownProperties : JSVal → List (JSVal × JSVal)
  coerceObj : Nat → Nat

/-- Body of a response the dispatcher writes to the transport. -/
inductive ResponseBody where
  | empty : ResponseBody
  | raw (v : JSVal) : ResponseBody
  | scopes (l : List ScopeEntry) : ResponseBody
  | variables (l : List VarRecord) : ResponseBody
deriving DecidableEq, Repr

/-- A message written to the transport during a pause: a response envelope
or a stopped event (identified by its reason string). -/
inductive SentMessage where
  | response (b : ResponseBody) : SentMessage
  | event (reason : String) : SentMessage
deriving DecidableEq, Repr

/-- The request object inside a request envelope, after the property reads
and numeric coercions the dispatcher performs: command via JS_ToCString,
args.frameId via JS_ToInt32 (restricted to the nonnegative frames for
which the shift in js_get_scopes is defined), args.variablesReference via
JS_ToUint32.  request_seq is only echoed into the response envelope and
carries no protocol logic, so it is not modelled. -/
structure Request where
  command : String
  frameId : Nat
  variablesReference : Nat
deriving DecidableEq, Repr

/-- Reference resolution inside the variables branch (lines 198-219): a hit
in the reference map returns the memoized value; otherwise the reference is
decoded as (frame, scope), the matching snapshot is fetched and memoized
under the same reference.  The two assert statements (line 206 for an
out-of-range frame, line 215 for scope code 3) are modelled as none:
the process aborts and nothing is returned. -/
def resolveReference (host : DebuggerHost) (state : DebuggerSuspendedState)
    (reference : Nat) : Option (DebuggerSuspendedState × JSVal) :=
  let memoized := objGetU state.variable_references reference
  if JS_IsUndefined memoized then
    let frame := (decodeReference reference).1
    let scope := (decodeReference reference).2
    if frame < host.stackDepth then
      let snapshot : Option JSVal :=
        if scope = 0 then some host.globalVariables
        else if scope = 1 then some (host.localVariables frame)
        else if scope = 2 then some (host.closureVariables frame)
        else none
      match snapshot with
      | some v =>
          some ({ state with
                    variable_references := alistSet state.variable_references reference v },
                v)
      | none => none
    else none
  else some (state, memoized)

/-- The loop at lines 227-232: one js_debugger_get_variable record per own
enumerable property, threading the suspended state left to right. -/
def buildProperties (coerceObj : Nat → Nat) :
    DebuggerSuspendedState → List (JSVal × JSVal) →
    DebuggerSuspendedState × List VarRecord
  | st, [] => (st, [])
  | st, (n, v) :: rest =>
      let r := js_debugger_get_variable coerceObj st n v
      let rs := buildProperties coerceObj r.1 rest
      (rs.1, r.2 :: rs.2)

/-- Result of js_process_request: the updated info and suspended state, the
messages written to the transport, the C return value (true = 1 = keep
draining, false = 0 = resume), and whether an assert fired (in which case
the process aborts and the other fields are never observed). -/
structure RequestResult where
  info : DebuggerInfo
  state : DebuggerSuspendedState
  sent : List SentMessage
  ret : Bool
  aborted : Bool
deriving Repr

/-- js_process_request (lines 161-243): the strcmp chain over the command
string in source order.  continue and next respond with an undefined body
and return 0; next additionally arms stepping and snapshots the current
location (lines 171-172); stackTrace, scopes and variables respond and
return 1; any other command falls through the whole chain, writes nothing
and returns 1. -/
def js_process_request (host : DebuggerHost) (info : DebuggerInfo)
    (state : DebuggerSuspendedState) (req : Request) : RequestResult :=
  if req.command = "continue" then
    ⟨info, state, [.response .empty], false, false⟩
  else if req.command = "next" then
    ⟨{ info with stepping := true, step_over := host.currentLocation },
     state, [.response .empty], false, false⟩
  else if req.command = "stackTrace" then
    ⟨info, state, [.response (.raw host.backtrace)], true, false⟩
  else if req.command = "scopes" then
    ⟨info, state, [.response (.scopes (js_get_scopes req.frameId))], true, false⟩
  else if req.command = "variables" then
    match resolveReference host state req.variablesReference with
    | none => ⟨info, state, [], true, true⟩
    | some sv =>
        let props := buildProperties host.coerceObj sv.1 (host.ownProperties sv.2)
        ⟨info, props.1, [.response (.variables props.2)], true, false⟩
  else ⟨info, state, [], true, false⟩

/-- js_process_breakpoints (lines 245-269): unconditionally bump the global
dirty counter, then replace the store entry for the path in the message
with a fresh object holding the breakpoints list from the message and the
new counter value. -/
def js_process_breakpoints (info : DebuggerInfo) (path : String)
    (breakpoints : JSVal) : DebuggerInfo :=
  let counter := info.breakpoints_dirty_counter + 1
  { info with
      breakpoints_dirty_counter := counter,
      breakpoints := alistSet info.breakpoints path ⟨breakpoints, counter⟩ }

/-- A whole session of breakpoints messages, applied in order. -/
def processBreakpointSession (info : DebuggerInfo)
    (msgs : List (String × JSVal)) : DebuggerInfo :=
  msgs.foldl (fun i m => js_process_breakpoints i m.1 m.2) info

/-- One parsed frame as consumed by the drain loop (lines 309-320): its
top-level type string and the payloads the three recognized branches read.
A JSON field that is absent reads as undefined, but a branch only ever
reads its own payload, so the payloads can be carried unconditionally.
For a breakpoints frame the code passes message.breakpoints to
js_process_breakpoints, which reads its path and breakpoints properties;
those two are carried here directly. -/
structure IncomingMessage where
  type : String
  request : Request
  path : String
  bplist : JSVal
deriving Repr

/-- Result of processing one frame inside the drain loop. -/
structure DrainStepResult where
  info : DebuggerInfo
  state : DebuggerSuspendedState
  sent : List SentMessage
  done : Bool
  aborted : Bool
deriving Repr

/-- The body of the while loop of js_process_debugger_messages after a
frame has been read and parsed (lines 311-322): dispatch on the type
string; request frames end the loop exactly when the dispatcher returns 0,
continue frames end it immediately, breakpoints frames update the store,
and any other type falls through all three strcmp tests and only frees the
message. -/
def js_process_one_message (host : DebuggerHost) (info : DebuggerInfo)
    (state : DebuggerSuspendedState) (msg : IncomingMessage) : DrainStepResult :=
  if msg.type = "request" then
    let r := js_process_request host info state msg.request
    ⟨r.info, r.state, r.sent, !r.ret, r.aborted⟩
  else if msg.type = "continue" then ⟨info, state, [], true, false⟩
  else if msg.type = "breakpoints" then
    ⟨js_process_breakpoints info msg.path msg.bplist, state, [], false, false⟩
  else ⟨info, state, [], false, false⟩

/-- js_debugger_free (lines 396-408): a no-op without a transport, else the
transport is closed and its pointers cleared.  The JS_FreeValue on the
breakpoints object releases memory and is not an observable store update,
so the field keeps its contents here. -/
def js_debugger_free_model (info : DebuggerInfo) : DebuggerInfo :=
  if info.has_transport then { info with has_transport := false } else info

/-- Result of one controller check: the updated info, the reasons of the
stopped events written, and whether control reached the drain loop
js_process_debugger_messages (the model of a check stops at that point;
the drain loop itself is modelled separately). -/
structure CheckResult where
  info : DebuggerInfo
  events : List String
  drained : Bool
deriving DecidableEq, Repr

/-- js_debugger_check (lines 345-394) up to entry into the drain loop.
The re-entrancy guard makes a nested call a no-op; is_debugging is set on
entry and cleared on every exit, so its net effect is invisible and the
field is left unchanged in the result.  The one-shot connection attempt
calls js_debugger_connect, host code outside this translation unit,
modelled by the connectHook parameter; hasAddress is the result of the
js_get_debug_address lookup, atBreakpoint the result of
js_debugger_check_breakpoint, loc the current location and peek the
transport_peek result. -/
def js_debugger_check_model (connectHook : DebuggerInfo → DebuggerInfo)
    (hasAddress atBreakpoint : Bool) (loc : JSDebuggerLocation) (peek : Int)
    (info : DebuggerInfo) : CheckResult :=
  if info.is_debugging then ⟨info, [], false⟩
  else
    let info1 :=
      if info.attempted_connect then info
      else
        let i := { info with attempted_connect := true }
        if hasAddress && !i.has_transport then connectHook i else i
    if !info1.has_transport then ⟨info1, [], false⟩
    else if atBreakpoint then ⟨info1, ["breakpoint"], true⟩
    else if info1.stepping then
      if loc = info1.step_over then ⟨info1, [], false⟩
      else ⟨{ info1 with stepping := false }, ["step"], true⟩
    else if info1.peek_ticks < 10000 then
      ⟨{ info1 with peek_ticks := info1.peek_ticks + 1 }, [], false⟩
    else
      let info2 := { info1 with peek_ticks := 0 }
      if peek < 0 then ⟨js_debugger_free_model info2, [], false⟩
      else if peek = 0 then ⟨info2, [], false⟩
      else ⟨info2, [], true⟩

/-- The two process-wide globals behind js_get_debug_address
(lines 16-17). -/
structure DebugAddressGlobals where
  debug_address : Option String
  need_load_debug_address : Bool
deriving DecidableEq, Repr

/-- Initial values of the globals: NULL address, load still needed. -/
def initialDebugAddressGlobals : DebugAddressGlobals :=
  ⟨none, true⟩

/-- js_get_debug_address (lines 20-26).  env is the value getenv returns on
this call.  If need_load_debug_address is clear the cached address is
returned; otherwise getenv is consulted and its result both returned and
cached.  Nothing in the translation unit ever clears
need_load_debug_address, which the model reproduces. -/
def js_get_debug_address (env : Option String) (g : DebugAddressGlobals) :
    Option String × DebugAddressGlobals :=
  if !g.need_load_debug_address then (g.debug_address, g)
  else (env, { g with debug_address := env })

/-! Concrete fixtures used by the witness theorems. -/

/-- A transport oracle that delivers one byte on the first call and then
reports end of stream (returns 0). -/
def trOneThenFail : Nat → Nat → Int :=
  fun j req => if j = 0 then min (req : Int) 1 else 0

/-- A transport oracle that always transfers exactly one byte per call. -/
def twOneByte : Nat → Nat → Int :=
  fun _ req => min (req : Int) 1

/-- A session state fixture: idle, connection already attempted, transport
attached, not stepping, empty breakpoint store, counter zero. -/
def infoFixture : DebuggerInfo :=
  ⟨false, true, true, false, ⟨0, 0, 0⟩, 0, [], 0⟩

/-- A host fixture with one stack frame and empty snapshots. -/
def hostFixture : DebuggerHost :=
  ⟨⟨0, 0, 0⟩, 1, JSVal.undefined, JSVal.objV 1,
   fun _ => JSVal.undefined, fun _ => JSVal.undefined,
   fun _ => [], fun _ => 0⟩

/-- Suspended state fixture for one stack frame. -/
def stateFixture : DebuggerSuspendedState :=
  initSuspendedState 1

/-- A location distinct from the fixture host current location. -/
def locElsewhere : JSDebuggerLocation :=
  ⟨1, 0, 0⟩

/-- A well-formed frame whose type is none of the three recognized ones. -/
def msgFixture : IncomingMessage :=
  ⟨"telemetry", ⟨"", 0, 0⟩, "", JSVal.undefined⟩

/-! Helper lemmas about the dictionary model and the transport loops. -/

theorem alistGet_set_self [DecidableEq α] (l : List (α × β)) (k : α) (v : β) :
    alistGet? (alistSet l k v) k = some v := by
  induction l with
  | nil => simp [alistSet, alistGet?]
  | cons hd tl ih =>
      obtain ⟨k', v'⟩ := hd
      by_cases h : k' = k
      · simp [alistSet, alistGet?, h]
      · simp [alistSet, alistGet?, h, ih]

theorem alistGet_set_other [DecidableEq α] (l : List (α × β)) (k q : α)
    (v : β) (h : q ≠ k) :
    alistGet? (alistSet l k v) q = alistGet? l q := by
  induction l with
  | nil => simp [alistSet, alistGet?, Ne.symm h]
  | cons hd tl ih =>
      obtain ⟨k', v'⟩ := hd
      by_cases hk : k' = k
      · subst hk
        simp [alistSet, alistGet?, Ne.symm h]
      · by_cases hq : k' = q
        · simp [alistSet, alistGet?, hk, hq, h]
        · simp [alistSet, alistGet?, hk, hq, ih]

theorem processBreakpointSession_counter (msgs : List (String × JSVal)) :
    ∀ info : DebuggerInfo,
      (processBreakpointSession info msgs).breakpoints_dirty_counter
        = info.breakpoints_dirty_counter + msgs.length := by
  induction msgs with
  | nil => intro info; simp [processBreakpointSession]
  | cons m rest ih =>
      intro info
      have hstep : processBreakpointSession info (m :: rest)
          = processBreakpointSession (js_process_breakpoints info m.1 m.2) rest := by
        simp [processBreakpointSession]
      rw [hstep, ih]
      simp [js_process_breakpoints]
      omega

theorem readFullyAux_exact (tr : Nat → Nat → Int)
    (htr : ∀ j req, tr j req ≤ (req : Int)) (length : Nat) :
    ∀ d k offset n, length - offset ≤ d → offset ≤ length →
      readFullyAux tr k offset length = some n → n = length := by
  intro d
  induction d with
  | zero =>
      intro k offset n hd hle heq
      unfold readFullyAux at heq
      rw [dif_neg (by omega)] at heq
      simp at heq
      omega
  | succ d ih =>
      intro k offset n hd hle heq
      unfold readFullyAux at heq
      by_cases h : offset < length
      · rw [dif_pos h] at heq
        by_cases hr : tr k (length - offset) ≤ 0
        · rw [dif_pos hr] at heq
          exact absurd heq (by simp)
        · rw [dif_neg hr] at heq
          have hb := htr k (length - offset)
          exact ih (k + 1) (offset + (tr k (length - offset)).toNat) n
            (by omega) (by omega) heq
      · rw [dif_neg h] at heq
        simp at heq
        omega

theorem writeFullyAux_exact (tw : Nat → Nat → Int)
    (htw : ∀ j req, tw j req ≤ (req : Int)) (length : Nat) :
    ∀ d k offset n, length - offset ≤ d → offset ≤ length →
      writeFullyAux tw k offset length = some n → n = length := by
  intro d
  induction d with
  | zero =>
      intro k offset n hd hle heq
      unfold writeFullyAux at heq
      rw [dif_neg (by omega)] at heq
      simp at heq
      omega
  | succ d ih =>
      intro k offset n hd hle heq
      unfold writeFullyAux at heq
      by_cases h : offset < length
      · rw [dif_pos h] at heq
        by_cases hw : tw k (length - offset) ≤ 0
        · rw [dif_pos hw] at heq
          exact absurd heq (by simp)
        · rw [dif_neg hw] at heq
          have hb := htw k (length - offset)
          exact ih (k + 1) (offset + (tw k (length - offset)).toNat) n
            (by omega) (by omega) heq
      · rw [dif_neg h] at heq
        simp at heq
        omega

/-! Claim theorems. -/

/-- Claim C1.  The claim states that inspecting the same object identity
twice within one pause yields the same variablesReference both times, the
second lookup reusing the stored reference.  The code violates this:
line 150 stores the object VALUE itself, not the allocated reference
number, under the identity map, so the hit branch at line 153 coerces the
stored object to uint32.  Evaluation at the failing input: the same object
(pointer 100) inspected twice in one pause at stack depth 1; the first
inspection allocates reference 4, the second returns 0 (ToUint32 of a
plain object), so the two references differ. -/
theorem same_object_two_lookups_differ :
    ((js_debugger_get_variable plainObjectToUint32 (initSuspendedState 1)
        (JSVal.strV "x") (JSVal.objV 100)).2.variablesReference = 4)
    ∧ ((js_debugger_get_variable plainObjectToUint32
        (js_debugger_get_variable plainObjectToUint32 (initSuspendedState 1)
          (JSVal.strV "x") (JSVal.objV 100)).1
        (JSVal.strV "y") (JSVal.objV 100)).2.variablesReference = 0)
    ∧ ((js_debugger_get_variable plainObjectToUint32
        (js_debugger_get_variable plainObjectToUint32 (initSuspendedState 1)
          (JSVal.strV "x") (JSVal.objV 100)).1
        (JSVal.strV "y") (JSVal.objV 100)).2.variablesReference
      ≠ (js_debugger_get_variable plainObjectToUint32 (initSuspendedState 1)
          (JSVal.strV "x") (JSVal.objV 100)).2.variablesReference) := by
  decide

/-- Claim C2.  The claim states that variablesReference is 0 exactly for
non-object values and that object values always receive a reference of at
least stack depth times 4.  The same slip as in C1 refutes it: at stack
depth 2 the second inspection of the object with pointer 200 yields a
record whose type tag is object but whose variablesReference is 0, the
leaf marker. -/
theorem object_value_reported_as_leaf :
    (JS_IsObject (JSVal.objV 200) = true)
    ∧ ((js_debugger_get_variable plainObjectToUint32
        (js_debugger_get_variable plainObjectToUint32 (initSuspendedState 2)
          (JSVal.strV "o") (JSVal.objV 200)).1
        (JSVal.strV "p") (JSVal.objV 200)).2.typeTag = some "object")
    ∧ ((js_debugger_get_variable plainObjectToUint32
        (js_debugger_get_variable plainObjectToUint32 (initSuspendedState 2)
          (JSVal.strV "o") (JSVal.objV 200)).1
        (JSVal.strV "p") (JSVal.objV 200)).2.variablesReference = 0) := by
  decide

/-- Claim C3: encoding a synthetic reference as frame times 4 plus scope,
as js_get_scopes does, and decoding it as the pair of the reference
shifted right by two and the reference mod 4, as the variables handler
does, is a round trip for every scope in 0, 1, 2 and every in-range frame.
The bound on the stack depth expresses that the int shift in js_get_scopes
does not overflow. -/
theorem synthetic_reference_roundtrip (frame scope stackDepth : Nat)
    (hs : scope < 3) (hf : frame < stackDepth) (hd : stackDepth ≤ 2 ^ 29) :
    decodeReference (encodeScopeRef frame scope) = (frame, scope) := by
  unfold decodeReference encodeScopeRef
  rw [Nat.mod_eq_of_lt (by omega)]
  refine Prod.ext ?_ ?_ <;> simp <;> omega

/-- Witness for C3 at frame 3, scope 2, stack depth 4. -/
theorem synthetic_reference_roundtrip_witness :
    decodeReference (encodeScopeRef 3 2) = (3, 2) :=
  synthetic_reference_roundtrip 3 2 4 (by omega) (by omega) (by omega)

/-- Claim C4: every breakpoints message bumps the global dirty counter by
exactly 1, replaces the entry for its path with the new list stamped with
the new counter value, leaves every other path alone, and across a session
the counter grows by one per message, never resetting. -/
theorem breakpoints_update_exact (info : DebuggerInfo) (path : String)
    (bps : JSVal) :
    ((js_process_breakpoints info path bps).breakpoints_dirty_counter
        = info.breakpoints_dirty_counter + 1)
    ∧ (alistGet? (js_process_breakpoints info path bps).breakpoints path
        = some ⟨bps, info.breakpoints_dirty_counter + 1⟩)
    ∧ (∀ q, q ≠ path →
        alistGet? (js_process_breakpoints info path bps).breakpoints q
          = alistGet? info.breakpoints q)
    ∧ (∀ msgs : List (String × JSVal),
        (processBreakpointSession info msgs).breakpoints_dirty_counter
          = info.breakpoints_dirty_counter + msgs.length) := by
  refine ⟨rfl, ?_, ?_, ?_⟩
  · simp [js_process_breakpoints, alistGet_set_self]
  · intro q hq
    simp [js_process_breakpoints, alistGet_set_other _ _ _ _ hq]
  · intro msgs
    exact processBreakpointSession_counter msgs info

/-- Witness for C4: one message for path a.js on the fixture session bumps
the counter from 0 to 1 and leaves the absent path b.js absent. -/
theorem breakpoints_update_exact_witness :
    ((js_process_breakpoints infoFixture "a.js" (JSVal.intV 3)).breakpoints_dirty_counter
        = infoFixture.breakpoints_dirty_counter + 1)
    ∧ (alistGet? (js_process_breakpoints infoFixture "a.js" (JSVal.intV 3)).breakpoints "b.js"
        = alistGet? infoFixture.breakpoints "b.js") :=
  ⟨(breakpoints_update_exact infoFixture "a.js" (JSVal.intV 3)).1,
   (breakpoints_update_exact infoFixture "a.js" (JSVal.intV 3)).2.2.1 "b.js" (by decide)⟩

/-- Claim C5: when no assert fires, js_process_request returns 0 (resume)
exactly for the continue and next commands, and for a command outside the
five recognized ones it writes nothing to the transport. -/
theorem js_process_request_continuation (host : DebuggerHost)
    (info : DebuggerInfo) (state : DebuggerSuspendedState) (req : Request)
    (hab : (js_process_request host info state req).aborted = false) :
    ((js_process_request host info state req).ret = false
        ↔ (req.command = "continue" ∨ req.command = "next"))
    ∧ (req.command ≠ "continue" → req.command ≠ "next" →
        req.command ≠ "stackTrace" → req.command ≠ "scopes" →
        req.command ≠ "variables" →
        (js_process_request host info state req).sent = []) := by
  unfold js_process_request at hab ⊢
  split_ifs with h1 h2 h3 h4 h5 <;> try simp_all
  rcases hres : resolveReference host state req.variablesReference with _ | sv <;>
    simp_all

/-- Witness for C5: an unrecognized command on the fixtures writes no
message. -/
theorem js_process_request_continuation_witness :
    (js_process_request hostFixture infoFixture stateFixture ⟨"inspect", 0, 0⟩).sent = [] :=
  (js_process_request_continuation hostFixture infoFixture stateFixture
      ⟨"inspect", 0, 0⟩ rfl).2
    (by decide) (by decide) (by decide) (by decide) (by decide)

/-- Claim C6: for every frame index the scopes response body is exactly the
three entries Local, Closure, Global in that order, with references frame
times 4 plus 1, plus 2 and plus 0, and with only Global expensive.  The
hypothesis expresses that the int shift does not overflow. -/
theorem scopes_response_exact (host : DebuggerHost) (info : DebuggerInfo)
    (state : DebuggerSuspendedState) (f vr : Nat) (h : 4 * f + 2 < 2 ^ 32) :
    (js_process_request host info state ⟨"scopes", f, vr⟩).sent
      = [SentMessage.response (ResponseBody.scopes
          [⟨"Local", 4 * f + 1, false⟩,
           ⟨"Closure", 4 * f + 2, false⟩,
           ⟨"Global", 4 * f + 0, true⟩])] := by
  have hs : js_get_scopes f
      = [⟨"Local", 4 * f + 1, false⟩,
         ⟨"Closure", 4 * f + 2, false⟩,
         ⟨"Global", 4 * f + 0, true⟩] := by
    unfold js_get_scopes encodeScopeRef
    rw [Nat.mod_eq_of_lt (by omega), Nat.mod_eq_of_lt (by omega),
      Nat.mod_eq_of_lt (by omega)]
  simp [js_process_request, hs]

/-- Witness for C6 at frame 0: references 1, 2, 0. -/
theorem scopes_response_exact_witness :
    (js_process_request hostFixture infoFixture stateFixture ⟨"scopes", 0, 0⟩).sent
      = [SentMessage.response (ResponseBody.scopes
          [⟨"Local", 4 * 0 + 1, false⟩,
           ⟨"Closure", 4 * 0 + 2, false⟩,
           ⟨"Global", 4 * 0 + 0, true⟩])] :=
  scopes_response_exact hostFixture infoFixture stateFixture 0 0 (by omega)

/-- Claim C7: the read and write loops report success only after exactly
the requested number of bytes has been transferred (for any transport that
never transfers more than asked), and report failure as soon as one
underlying call returns a nonpositive count. -/
theorem transport_fully_exact (tr tw : Nat → Nat → Int) (len : Nat)
    (htr : ∀ j req, tr j req ≤ (req : Int))
    (htw : ∀ j req, tw j req ≤ (req : Int)) :
    (∀ n, readFullyAux tr 0 0 len = some n → n = len)
    ∧ (∀ n, writeFullyAux tw 0 0 len = some n → n = len)
    ∧ (∀ k offset, offset < len → tr k (len - offset) ≤ 0 →
        readFullyAux tr k offset len = none)
    ∧ (∀ k offset, offset < len → tw k (len - offset) ≤ 0 →
        writeFullyAux tw k offset len = none)
    ∧ (js_transport_read_fully tr len = true → readFullyAux tr 0 0 len = some len)
    ∧ (js_transport_write_fully tw len = true → writeFullyAux tw 0 0 len = some len) := by
  have hre : ∀ n, readFullyAux tr 0 0 len = some n → n = len :=
    fun n => readFullyAux_exact tr htr len len 0 0 n (by omega) (by omega)
  have hwe : ∀ n, writeFullyAux tw 0 0 len = some n → n = len :=
    fun n => writeFullyAux_exact tw htw len len 0 0 n (by omega) (by omega)
  refine ⟨hre, hwe, ?_, ?_, ?_, ?_⟩
  · intro k offset h1 h2
    unfold readFullyAux
    rw [dif_pos h1, dif_pos h2]
  · intro k offset h1 h2
    unfold writeFullyAux
    rw [dif_pos h1, dif_pos h2]
  · intro hs
    obtain ⟨n, hn⟩ := Option.isSome_iff_exists.mp hs
    rw [hn, hre n hn]
  · intro hs
    obtain ⟨n, hn⟩ := Option.isSome_iff_exists.mp hs
    rw [hn, hwe n hn]

/-- Witness for C7: the one-byte-then-eof transport fails a two-byte read
at its second call, and the one-byte transport completes a two-byte write
with exactly two bytes. -/
theorem transport_fully_exact_witness :
    readFullyAux trOneThenFail 1 1 2 = none ∧ (2 : Nat) = 2 := by
  have htr : ∀ j req, trOneThenFail j req ≤ (req : Int) := by
    intro j req
    simp only [trOneThenFail]
    split <;> omega
  have htw : ∀ j req, twOneByte j req ≤ (req : Int) := by
    intro j req
    simp only [twOneByte]
    omega
  refine ⟨?_, ?_⟩
  · exact (transport_fully_exact trOneThenFail twOneByte 2 htr htw).2.2.1 1 1
      (by omega) (by simp [trOneThenFail])
  · exact (transport_fully_exact trOneThenFail twOneByte 2 htr htw).2.1 2
      (by simp [writeFullyAux, twOneByte])

/-- Claim C8: a next command arms stepping with the current location as the
step target; a later check, not at a breakpoint, leaves the session
untouched while the current location equals the target (stepping stays
set) and clears stepping, sends a step stopped event and enters the drain
loop exactly when the location differs in any component. -/
theorem next_arm_then_step_check
    (connectHook : DebuggerInfo → DebuggerInfo) (hasAddress : Bool)
    (host : DebuggerHost) (state : DebuggerSuspendedState)
    (info : DebuggerInfo) (loc : JSDebuggerLocation) (peek : Int) (fid vr : Nat)
    (hdbg : info.is_debugging = false) (hconn : info.attempted_connect = true)
    (htrans : info.has_transport = true) :
    ((js_process_request host info state ⟨"next", fid, vr⟩).info.stepping = true)
    ∧ ((js_process_request host info state ⟨"next", fid, vr⟩).info.step_over
        = host.currentLocation)
    ∧ (loc = host.currentLocation →
        js_debugger_check_model connectHook hasAddress false loc peek
            ((js_process_request host info state ⟨"next", fid, vr⟩).info)
          = ⟨(js_process_request host info state ⟨"next", fid, vr⟩).info, [], false⟩)
    ∧ (loc ≠ host.currentLocation →
        js_debugger_check_model connectHook hasAddress false loc peek
            ((js_process_request host info state ⟨"next", fid, vr⟩).info)
          = ⟨{ (js_process_request host info state ⟨"next", fid, vr⟩).info with
                stepping := false }, ["step"], true⟩) := by
  have harm : (js_process_request host info state ⟨"next", fid, vr⟩).info
      = { info with stepping := true, step_over := host.currentLocation } := by
    simp [js_process_request]
  rw [harm]
  refine ⟨rfl, rfl, ?_, ?_⟩
  · intro hl
    unfold js_debugger_check_model
    simp [hdbg, hconn, htrans, hl]
  · intro hl
    unfold js_debugger_check_model
    simp [hdbg, hconn, htrans, hl]

/-- Witness for C8: on the fixtures, a check at a location differing from
the snapshotted target sends the step event and drains. -/
theorem next_arm_then_step_check_witness :
    js_debugger_check_model id true false locElsewhere 0
        ((js_process_request hostFixture infoFixture stateFixture ⟨"next", 0, 0⟩).info)
      = ⟨{ (js_process_request hostFixture infoFixture stateFixture ⟨"next", 0, 0⟩).info with
            stepping := false }, ["step"], true⟩ :=
  (next_arm_then_step_check id true hostFixture stateFixture infoFixture
      locElsewhere 0 0 0 rfl rfl rfl).2.2.2 (by decide)

/-- Claim C9.  The claim states that the attach address is read from the
environment at most once per process and that later calls return the
cached value.  The code violates this: need_load_debug_address is
initialized to 1 and never cleared, so the cached branch is dead and every
call consults getenv again.  Evaluation at the failing input: the
environment holds addr1 at the first call and addr2 at the second; the
second call returns addr2, not the cached addr1. -/
theorem debug_address_reread_from_environment :
    ((js_get_debug_address (some "addr1") initialDebugAddressGlobals).1 = some "addr1")
    ∧ ((js_get_debug_address (some "addr2")
        (js_get_debug_address (some "addr1") initialDebugAddressGlobals).2).1
        = some "addr2")
    ∧ ((js_get_debug_address (some "addr2")
        (js_get_debug_address (some "addr1") initialDebugAddressGlobals).2).1
        ≠ some "addr1") := by
  decide

/-- Claim C10: a well-formed frame whose type is none of request, continue
or breakpoints is dropped: nothing is written, the session info (including
the breakpoint store and dirty counter) and the suspended state are
unchanged, no assert fires, and the loop keeps draining. -/
theorem unknown_frame_type_dropped (host : DebuggerHost) (info : DebuggerInfo)
    (state : DebuggerSuspendedState) (msg : IncomingMessage)
    (h1 : msg.type ≠ "request") (h2 : msg.type ≠ "continue")
    (h3 : msg.type ≠ "breakpoints") :
    js_process_one_message host info state msg
      = ⟨info, state, [], false, false⟩ := by
  unfold js_process_one_message
  rw [if_neg h1, if_neg h2, if_neg h3]

/-- Witness for C10: a telemetry frame on the fixtures is dropped. -/
theorem unknown_frame_type_dropped_witness :
    js_process_one_message hostFixture infoFixture stateFixture msgFixture
      = ⟨infoFixture, stateFixture, [], false, false⟩ :=
  unknown_frame_type_dropped hostFixture infoFixture stateFixture msgFixture
    (by decide) (by decide) (by decide)

end QuickJSDebugger
